import Mathlib

/-!
Shallow embedding of `src/main.py` (Insurance Sales Agent API), centred on the
`/quote` recommendation engine (`get_quote`, lines 104-160).

Modelling conventions:
* Python numbers are modelled as rationals (`ℚ`); the float value
  `float('inf')` produced at line 133 is modelled by an explicit
  extended-rational type `ERat` for the arithmetic of line 136.
* A JSON value stored in `premium_yearly` is either a number or a
  non-numeric value (`PVal.pstr`); arithmetic on a non-numeric value
  raises `TypeError`, as in Python.
* Python exceptions are modelled by `Except PyErr`; the `except
  (ValueError, TypeError)` clause at line 150 catches exactly those two
  constructors, every other error propagates out of `get_quote`.
* Python `dict` preserves insertion order, so `premium_yearly` is an
  association list; `dict.get` / "first value" become `List.lookup` /
  `List.head?`.
-/

set_option maxRecDepth 4000

namespace Inna

/-- Equality of `Except` values is decidable when both components' is. -/
instance {ε α : Type} [DecidableEq ε] [DecidableEq α] : DecidableEq (Except ε α) := fun a b =>
  match a, b with
  | .error e, .error f =>
    if h : e = f then isTrue (by rw [h]) else isFalse (by intro hc; cases hc; exact h rfl)
  | .ok x, .ok y =>
    if h : x = y then isTrue (by rw [h]) else isFalse (by intro hc; cases hc; exact h rfl)
  | .error _, .ok _ => isFalse (by intro hc; cases hc)
  | .ok _, .error _ => isFalse (by intro hc; cases hc)

/-- Exceptions that the scoring code of `main.py` can raise. -/
inductive PyErr where
  | valueError
  | typeError
  | indexError
  | zeroDivisionError
  deriving DecidableEq

/-- A JSON value appearing in a policy's `premium_yearly` mapping: a number,
or a non-numeric value (carried as its string form) on which arithmetic
raises `TypeError`. -/
inductive PVal where
  | pnum (q : ℚ)
  | pstr (s : String)
  deriving DecidableEq

/-- `UserProfile` pydantic model of `main.py` lines 47-56.  All scoring
fields are plain integers/strings; no field constrains its sign. -/
structure UserProfile where
  age : Int
  dependents_count : Int
  annual_income_band : Int
  risk_tolerance : String
  preferred_premium_band : Int
  vehicle_type : Option String
  health_flags : Option (List String)
  deriving DecidableEq

/-- A policy record of the catalog (shape of `main.py` lines 58-68; the
`eligibility` dict is read only at the keys `min_age` / `max_age`,
modelled as the two `Option` fields). -/
structure Policy where
  policy_id : String
  name : String
  type : String
  description : String
  sum_insured : List Int
  premium_yearly : List (String × PVal)
  eligibility_min_age : Option Int
  eligibility_max_age : Option Int
  exclusions : List String
  riders : List String
  deriving DecidableEq

/-- Extended rationals: the fragment of Python float arithmetic that the
scoring expression at line 136 can produce (finite values and ±infinity). -/
inductive ERat where
  | fin (q : ℚ)
  | posInf
  | negInf
  deriving DecidableEq

/-- Subtraction of a finite value, as Python float subtraction. -/
def ERat.sub (a : ERat) (b : ℚ) : ERat :=
  match a with
  | .fin q => .fin (q - b)
  | .posInf => .posInf
  | .negInf => .negInf

/-- Absolute value, as Python `abs` on floats. -/
def ERat.abs : ERat → ERat
  | .fin q => .fin |q|
  | .posInf => .posInf
  | .negInf => .posInf

/-- Division by a finite value; Python raises `ZeroDivisionError` on a zero
divisor, and an infinity divided by a finite value keeps or flips sign. -/
def ERat.div (a : ERat) (b : ℚ) : Except PyErr ERat :=
  if b = 0 then .error .zeroDivisionError
  else match a with
    | .fin q => .ok (.fin (q / b))
    | .posInf => .ok (if 0 < b then ERat.posInf else ERat.negInf)
    | .negInf => .ok (if 0 < b then ERat.negInf else ERat.posInf)

/-- Comparison of an extended rational with a finite bound (Python `<`). -/
def ERat.ltQ (a : ERat) (c : ℚ) : Bool :=
  match a with
  | .fin q => decide (q < c)
  | .posInf => false
  | .negInf => true

/-- Python's substring test `needle in haystack`, on character lists. -/
def isSubstr (needle : List Char) : List Char → Bool
  | [] => needle.isEmpty
  | c :: rest => needle.isPrefixOf (c :: rest) || isSubstr needle rest

/-- Python `min` over a nonempty list, head plus tail. -/
def listMin (x : Int) (xs : List Int) : Int := xs.foldl min x

/-- Decimal digits of a natural number, most significant first.  The first
argument is structural fuel: each step strips one decimal digit, so 64
levels cover every number below `10^64` (far beyond any premium tier) while
keeping kernel reduction shallow. -/
def pyDigits : Nat → Nat → List Char
  | 0, _ => []
  | fuel + 1, n =>
    if n = 0 then []
    else pyDigits fuel (n / 10) ++ [Nat.digitChar (n % 10)]

/-- Python `str` on an integer: canonical decimal form with a leading `-`
for negative numbers. -/
def pyStr (i : Int) : String :=
  if i < 0 then ⟨'-' :: pyDigits 64 i.natAbs⟩
  else if i = 0 then "0"
  else ⟨pyDigits 64 i.natAbs⟩

/-- Lines 115-117: a policy is eligible iff
`min_age ≤ profile.age ≤ max_age`, the bounds defaulting to 0 and 100 when
the key is absent from `eligibility`. -/
def eligibleB (profile : UserProfile) (p : Policy) : Bool :=
  decide (p.eligibility_min_age.getD 0 ≤ profile.age ∧
          profile.age ≤ p.eligibility_max_age.getD 100)

/-- Lines 113-118: the `eligible_policies` list. -/
def eligible_policies (catalog : List Policy) (profile : UserProfile) : List Policy :=
  catalog.filter (eligibleB profile)

/-- A resolved reference premium: a value from `premium_yearly`, or the
`float('inf')` default of line 133. -/
inductive RefVal where
  | val (v : PVal)
  | inf
  deriving DecidableEq

/-- Lines 125-133: reference-premium resolution.  If `sum_insured` is empty
or `[0]`, take the first value of `premium_yearly` (an empty mapping raises
`IndexError` at the `[0]` subscript); otherwise look up
`str(min(sum_insured))`, defaulting to infinity.  (`min` of an empty list
would raise `ValueError`, but that branch is unreachable.) -/
def reference_premium (p : Policy) : Except PyErr RefVal :=
  if p.sum_insured = [] ∨ p.sum_insured = [0] then
    match p.premium_yearly with
    | [] => .error .indexError
    | (_, v) :: _ => .ok (.val v)
  else
    match p.sum_insured with
    | [] => .error .valueError
    | x :: xs =>
      match p.premium_yearly.lookup (pyStr (listMin x xs)) with
      | some v => .ok (.val v)
      | none => .ok .inf

/-- Line 136: `abs(reference_premium - preferred_premium_band) /
preferred_premium_band`.  Subtracting from a non-numeric value raises
`TypeError` (caught at line 150); dividing by a zero band raises
`ZeroDivisionError` (not caught). -/
def premium_diff_percent (r : RefVal) (band : Int) : Except PyErr ERat :=
  match r with
  | .val (.pstr _) => .error .typeError
  | .val (.pnum q) => (((ERat.fin q).sub (band : ℚ)).abs).div (band : ℚ)
  | .inf => ((ERat.posInf.sub (band : ℚ)).abs).div (band : ℚ)

/-- Lines 137-140: +3 within 20% of the preferred premium, else +1 within
50%, else nothing.  (The literals 0.2 and 0.5 are exact in `ℚ`.) -/
def premiumScore (d : ERat) : Nat :=
  if d.ltQ (0.2 : ℚ) then 3 else if d.ltQ (0.5 : ℚ) then 1 else 0

/-- Lines 142-146: +2 for a Low-risk profile on a life/health policy, +3
for a High-risk profile on a policy whose name contains "ULIP". -/
def riskScore (profile : UserProfile) (p : Policy) : Nat :=
  (if profile.risk_tolerance == "Low" && (p.type == "life" || p.type == "health")
     then 2 else 0)
  + (if profile.risk_tolerance == "High" && isSubstr "ULIP".data p.name.data
     then 3 else 0)

/-- Lines 123-148: the score of one eligible policy (0 plus the premium
bonus plus the risk bonuses), or the exception its try-block raises. -/
def scorePolicy (profile : UserProfile) (p : Policy) : Except PyErr Nat := do
  let r ← reference_premium p
  let d ← premium_diff_percent r profile.preferred_premium_band
  .ok (premiumScore d + riskScore profile p)

/-- Lines 121-152: the scoring loop.  A `ValueError` or `TypeError` from one
policy skips that policy (line 150's except clause); any other exception
propagates and aborts the whole request. -/
def scoreLoop (profile : UserProfile) : List Policy → Except PyErr (List (Policy × Nat))
  | [] => .ok []
  | p :: rest =>
    match scorePolicy profile p with
    | .ok s => (scoreLoop profile rest).map (fun tail => (p, s) :: tail)
    | .error .valueError => scoreLoop profile rest
    | .error .typeError => scoreLoop profile rest
    | .error e => .error e

/-- The `scored_policies` list of lines 121-152, over the eligible policies. -/
def scored_policies (catalog : List Policy) (profile : UserProfile) :
    Except PyErr (List (Policy × Nat)) :=
  scoreLoop profile (eligible_policies catalog profile)

/-- The comparison of line 155: `sorted(..., key=score, reverse=True)`
orders by score descending; as a stable-sort "may precede" relation this is
`b.score ≤ a.score`. -/
def sortLE (a b : Policy × Nat) : Bool := decide (b.2 ≤ a.2)

/-- Lines 154-155: stable sort by score descending (Python's `sorted` is
stable; `reverse=True` keeps equal-key elements in their original order). -/
def sorted_policies (scored : List (Policy × Nat)) : List (Policy × Nat) :=
  scored.mergeSort sortLE

/-- Lines 104-160: the `/quote` endpoint body — filter, score, sort, return
the top 3 policies (the `recommendations` list), or the uncaught exception. -/
def get_quote (catalog : List Policy) (profile : UserProfile) :
    Except PyErr (List Policy) :=
  (scored_policies catalog profile).map
    (fun scored => ((sorted_policies scored).take 3).map (fun x => x.1))

/-! Concrete records used by the scenario parts of the claims. -/

/-- Scenario A catalog entry `P1` (spec §8). -/
def policyP1 : Policy :=
  { policy_id := "P1"
    name := "Secure Health Plan"
    type := "health"
    description := "basic health cover"
    sum_insured := [500000]
    premium_yearly := [("500000", .pnum 5000)]
    eligibility_min_age := some 18
    eligibility_max_age := some 65
    exclusions := []
    riders := [] }

/-- Scenario A profile (spec §8). -/
def profileA : UserProfile :=
  { age := 30
    dependents_count := 1
    annual_income_band := 800000
    risk_tolerance := "Low"
    preferred_premium_band := 5000
    vehicle_type := none
    health_flags := none }

/-- Scenario C policy: `sum_insured [0]`, flat premium mapping (spec §8). -/
def policyFlat : Policy :=
  { policy_id := "P2"
    name := "Motor Basic"
    type := "motor"
    description := "third party motor cover"
    sum_insured := [0]
    premium_yearly := [("flat", .pnum 12000)]
    eligibility_min_age := none
    eligibility_max_age := none
    exclusions := []
    riders := [] }

/-- A policy with an empty `premium_yearly` mapping and empty `sum_insured`:
resolution hits `list(...)[0]` on an empty list. -/
def policyEmptyPrem : Policy :=
  { policy_id := "P3"
    name := "Broken Plan"
    type := "misc"
    description := "no premium data"
    sum_insured := []
    premium_yearly := []
    eligibility_min_age := none
    eligibility_max_age := none
    exclusions := []
    riders := [] }

/-- A policy whose resolved premium value is non-numeric, so scoring raises
`TypeError` at the subtraction of line 136. -/
def policyStrPrem : Policy :=
  { policy_id := "P4"
    name := "Odd Plan"
    type := "misc"
    description := "string premium"
    sum_insured := [0]
    premium_yearly := [("flat", .pstr "NA")]
    eligibility_min_age := none
    eligibility_max_age := none
    exclusions := []
    riders := [] }

/-- A profile with `preferred_premium_band = 0` (Scenario E). -/
def profileBand0 : UserProfile :=
  { age := 30
    dependents_count := 0
    annual_income_band := 600000
    risk_tolerance := "Medium"
    preferred_premium_band := 0
    vehicle_type := none
    health_flags := none }

/-- A profile with a negative `preferred_premium_band`. -/
def profileNeg : UserProfile :=
  { age := 30
    dependents_count := 0
    annual_income_band := 600000
    risk_tolerance := "Medium"
    preferred_premium_band := -1
    vehicle_type := none
    health_flags := none }

/-! Spec-side definitions, written from the specification's words, for the
refinement-style claims. -/

/-- Following the spec's words (§4.2 step 2): when `sum_insured` is empty or
`[0]` the reference premium is the first value found in `premium_yearly` in
insertion order (`none` when no first value exists); otherwise it is the
value at key `str(min(sum_insured))`, taken as infinite when that key is
absent. -/
def specReferencePremium (p : Policy) : Option RefVal :=
  if p.sum_insured = [] ∨ p.sum_insured = [0] then
    p.premium_yearly.head?.map (fun kv => RefVal.val kv.2)
  else
    match p.sum_insured with
    | [] => none
    | x :: xs =>
      match p.premium_yearly.lookup (pyStr (listMin x xs)) with
      | some v => some (RefVal.val v)
      | none => some RefVal.inf

/-- The claim's wording of the +2 risk-alignment condition:
`risk_tolerance = "Low"` and the policy type is `"life"` or `"health"`. -/
def lowRiskBonusApplies (profile : UserProfile) (p : Policy) : Prop :=
  profile.risk_tolerance = "Low" ∧ (p.type = "life" ∨ p.type = "health")

/-- The claim's wording of the +3 risk-alignment condition:
`risk_tolerance = "High"` and `"ULIP"` occurs in the policy name. -/
def highRiskBonusApplies (profile : UserProfile) (p : Policy) : Prop :=
  profile.risk_tolerance = "High" ∧ isSubstr "ULIP".data p.name.data = true

instance (profile : UserProfile) (p : Policy) : Decidable (lowRiskBonusApplies profile p) := by
  unfold lowRiskBonusApplies; exact inferInstance

instance (profile : UserProfile) (p : Policy) : Decidable (highRiskBonusApplies profile p) := by
  unfold highRiskBonusApplies; exact inferInstance

/-- Following the claim's formula for the premium-proximity bonus:
`diff = |ref − band| / band`; add 3 if `diff < 0.2`, else 1 if
`diff < 0.5`, else 0. -/
def specPremiumBonus (ref band : ℚ) : Nat :=
  if |ref - band| / band < (0.2 : ℚ) then 3
  else if |ref - band| / band < (0.5 : ℚ) then 1
  else 0

/-- Following the claim's wording of the risk-alignment bonuses, as the sum
of the two independent additions. -/
def specRiskBonus (profile : UserProfile) (p : Policy) : Nat :=
  (if lowRiskBonusApplies profile p then 2 else 0)
  + (if highRiskBonusApplies profile p then 3 else 0)

/-- A policy whose reference premium resolves to a numeric value or to the
infinite default (the cases that reach the division of line 136). -/
def resolvesNumeric (p : Policy) : Prop :=
  (∃ q, reference_premium p = .ok (.val (.pnum q))) ∨ reference_premium p = .ok .inf

/-! Helper lemmas shared between claims. -/

/-- The Bool conditions of `riskScore` coincide with the claim's Prop
conditions. -/
theorem riskScore_eq_spec (profile : UserProfile) (p : Policy) :
    riskScore profile p = specRiskBonus profile p := by
  unfold riskScore specRiskBonus lowRiskBonusApplies highRiskBonusApplies
  simp only [Bool.and_eq_true, Bool.or_eq_true, beq_iff_eq]

theorem scoreLoop_cons (profile : UserProfile) (p : Policy) (rest : List Policy) :
    scoreLoop profile (p :: rest) =
      match scorePolicy profile p with
      | .ok s => (scoreLoop profile rest).map (fun tail => (p, s) :: tail)
      | .error .valueError => scoreLoop profile rest
      | .error .typeError => scoreLoop profile rest
      | .error e => .error e := rfl

/-- Every scored pair produced by the loop names a policy of the input list. -/
theorem scoreLoop_mem (profile : UserProfile) :
    ∀ (l : List Policy) (l' : List (Policy × Nat)), scoreLoop profile l = .ok l' →
      ∀ p s, (p, s) ∈ l' → p ∈ l := by
  intro l
  induction l with
  | nil =>
    intro l' h p s hm
    rw [scoreLoop] at h
    injection h with h
    subst h
    simp at hm
  | cons hd tl ih =>
    intro l' h p s hm
    rw [scoreLoop_cons] at h
    split at h
    · rename_i s' hsp
      cases hrec : scoreLoop profile tl with
      | ok tail =>
        rw [hrec] at h
        simp only [Except.map] at h
        injection h with h
        subst h
        rcases List.mem_cons.mp hm with h1 | h2
        · rw [show p = hd from congrArg Prod.fst h1]
          exact List.mem_cons_self _ _
        · exact List.mem_cons_of_mem _ (ih tail hrec p s h2)
      | error e =>
        rw [hrec] at h
        simp [Except.map] at h
    · exact List.mem_cons_of_mem _ (ih l' h p s hm)
    · exact List.mem_cons_of_mem _ (ih l' h p s hm)
    · simp at h

/-- Removing a policy whose scoring raises a caught exception does not change
the result of the loop, wherever it sits in the list. -/
theorem scoreLoop_skip_middle (profile : UserProfile) (p : Policy)
    (hp : scorePolicy profile p = .error .valueError ∨
          scorePolicy profile p = .error .typeError) :
    ∀ (a b : List Policy), scoreLoop profile (a ++ p :: b) = scoreLoop profile (a ++ b) := by
  intro a
  induction a with
  | nil =>
    intro b
    simp only [List.nil_append]
    rw [scoreLoop_cons]
    rcases hp with hp | hp <;> rw [hp]
  | cons hd tl ih =>
    intro b
    simp only [List.cons_append]
    rw [scoreLoop_cons, scoreLoop_cons, ih]

/-- The only exception reference-premium resolution can raise in practice is
the `IndexError` of an empty mapping under an empty-or-`[0]` `sum_insured`
(the `ValueError` of `min([])` sits in an unreachable branch). -/
theorem reference_premium_error (p : Policy) (e : PyErr)
    (h : reference_premium p = .error e) :
    e = .indexError ∧ (p.sum_insured = [] ∨ p.sum_insured = [0]) ∧ p.premium_yearly = [] := by
  unfold reference_premium at h
  split at h
  · rename_i hcond
    cases hpy : p.premium_yearly with
    | nil =>
      rw [hpy] at h
      injection h with h
      exact ⟨h.symm, hcond, rfl⟩
    | cons kv rest =>
      rw [hpy] at h
      simp at h
  · rename_i hcond
    split at h
    · rename_i heq
      exact absurd (Or.inl heq) hcond
    · split at h <;> simp at h

theorem scorePolicy_ref_error (profile : UserProfile) (p : Policy) (e : PyErr)
    (h : reference_premium p = .error e) : scorePolicy profile p = .error e := by
  unfold scorePolicy
  rw [h]
  rfl

theorem scorePolicy_pstr (profile : UserProfile) (p : Policy) (s : String)
    (h : reference_premium p = .ok (.val (.pstr s))) :
    scorePolicy profile p = .error .typeError := by
  unfold scorePolicy
  rw [h]
  rfl

/-- With a nonzero band, a numerically-resolved policy scores the premium
bonus of line 137-140 plus the risk bonuses of lines 142-146. -/
theorem scorePolicy_pnum (profile : UserProfile) (p : Policy) (q : ℚ)
    (h : reference_premium p = .ok (.val (.pnum q)))
    (hband : profile.preferred_premium_band ≠ 0) :
    scorePolicy profile p =
      .ok (premiumScore (ERat.fin (|q - (profile.preferred_premium_band : ℚ)| /
            (profile.preferred_premium_band : ℚ))) + riskScore profile p) := by
  have hcast : ((profile.preferred_premium_band : Int) : ℚ) ≠ 0 := Int.cast_ne_zero.mpr hband
  unfold scorePolicy
  rw [h]
  simp [premium_diff_percent, ERat.sub, ERat.abs, ERat.div, hcast, bind, Except.bind]

/-- With a zero band, any numerically-resolved policy hits the uncaught
`ZeroDivisionError` of line 136. -/
theorem scorePolicy_band0 (profile : UserProfile) (p : Policy)
    (hband : profile.preferred_premium_band = 0) (h : resolvesNumeric p) :
    scorePolicy profile p = .error .zeroDivisionError := by
  unfold scorePolicy
  rcases h with ⟨q, hq⟩ | hq <;>
    rw [hq] <;>
      simp [premium_diff_percent, ERat.sub, ERat.abs, ERat.div, hband, bind, Except.bind]

/-- With a zero band and no empty-mapping `IndexError`, a policy either
resolves numerically (and will divide by zero) or raises the caught
`TypeError`. -/
theorem scorePolicy_band0_cases (profile : UserProfile) (p : Policy)
    (hno : ¬((p.sum_insured = [] ∨ p.sum_insured = [0]) ∧ p.premium_yearly = [])) :
    resolvesNumeric p ∨ scorePolicy profile p = .error .typeError := by
  cases href : reference_premium p with
  | ok r =>
    cases r with
    | val v =>
      cases v with
      | pnum q => exact Or.inl (Or.inl ⟨q, href⟩)
      | pstr s => exact Or.inr (scorePolicy_pstr profile p s href)
    | inf => exact Or.inl (Or.inr href)
  | error e =>
    obtain ⟨_, hcond, hpy⟩ := reference_premium_error p e href
    exact absurd ⟨hcond, hpy⟩ hno

/-- With a zero band, the loop aborts with the division error as soon as it
meets a numerically-resolved policy, provided no empty-mapping `IndexError`
fires first. -/
theorem scoreLoop_band0 (profile : UserProfile)
    (hband : profile.preferred_premium_band = 0) :
    ∀ l : List Policy,
      (∀ p ∈ l, ¬((p.sum_insured = [] ∨ p.sum_insured = [0]) ∧ p.premium_yearly = [])) →
      (∃ p ∈ l, resolvesNumeric p) →
      scoreLoop profile l = .error .zeroDivisionError := by
  intro l
  induction l with
  | nil =>
    intro _ hex
    simp at hex
  | cons hd tl ih =>
    intro hno hex
    rw [scoreLoop_cons]
    rcases scorePolicy_band0_cases profile hd (hno hd (List.mem_cons_self _ _)) with hnum | htyp
    · rw [scorePolicy_band0 profile hd hband hnum]
    · rw [htyp]
      refine ih (fun p hp => hno p (List.mem_cons_of_mem _ hp)) ?_
      rcases hex with ⟨p, hp, hres⟩
      rcases List.mem_cons.mp hp with rfl | hp'
      · exact absurd (scorePolicy_band0 profile p hband hres)
          (by rw [htyp]; intro hc; injection hc with hc; cases hc)
      · exact ⟨p, hp', hres⟩

/-- `get_quote` succeeds exactly when the scoring loop does, returning the
top three of the sorted scored list. -/
theorem get_quote_ok_iff (catalog : List Policy) (profile : UserProfile) (res : List Policy) :
    get_quote catalog profile = .ok res ↔
      ∃ scored, scored_policies catalog profile = .ok scored ∧
        res = ((sorted_policies scored).take 3).map (fun x => x.1) := by
  unfold get_quote
  cases h : scored_policies catalog profile with
  | ok scored =>
    simp only [h, Except.map]
    constructor
    · intro hr
      injection hr with hr
      exact ⟨scored, rfl, hr.symm⟩
    · rintro ⟨scored', hs, rfl⟩
      injection hs with hs
      subst hs
      rfl
  | error e =>
    simp only [h, Except.map]
    constructor
    · intro hr; simp at hr
    · rintro ⟨scored', hs, _⟩; simp at hs

/-- `get_quote` propagates an uncaught loop error. -/
theorem get_quote_error (catalog : List Policy) (profile : UserProfile) (e : PyErr)
    (h : scored_policies catalog profile = .error e) :
    get_quote catalog profile = .error e := by
  unfold get_quote
  rw [h]
  rfl

/-! Concrete evaluations used by several scenario conjuncts and witnesses. -/

/-- Scenario A scoring: exact premium match (+3) and Low+health (+2). -/
theorem scenarioA_score : scorePolicy profileA policyP1 = .ok 5 := by
  have h0 : ((5000 : Int) : ℚ) ≠ 0 := by norm_num
  have h1 : |(5000 : ℚ) - ((5000 : Int) : ℚ)| / ((5000 : Int) : ℚ) < 0.2 := by norm_num
  simp [scorePolicy, reference_premium, premium_diff_percent, premiumScore, riskScore,
    ERat.sub, ERat.abs, ERat.div, ERat.ltQ, listMin, pyStr, pyDigits, isSubstr, policyP1,
    profileA, List.lookup, Nat.digitChar, List.isPrefixOf, bind, Except.bind, h0, h1]
  all_goals norm_num

theorem scenarioA_scored : scored_policies [policyP1] profileA = .ok [(policyP1, 5)] := by
  have he : eligible_policies [policyP1] profileA = [policyP1] := by decide
  unfold scored_policies
  rw [he, scoreLoop_cons, scenarioA_score]
  rfl

theorem scenarioA_quote : get_quote [policyP1] profileA = .ok [policyP1] :=
  (get_quote_ok_iff [policyP1] profileA [policyP1]).mpr
    ⟨[(policyP1, 5)], scenarioA_scored, by simp [sorted_policies]⟩

/-- Negative-band scoring: the diff is nonpositive, so the +3 bonus fires;
no risk bonus for a "Medium" profile. -/
theorem scenarioNeg_score : scorePolicy profileNeg policyP1 = .ok 3 := by
  have h0 : ((-1 : Int) : ℚ) ≠ 0 := by norm_num
  have h1 : |(5000 : ℚ) - ((-1 : Int) : ℚ)| / ((-1 : Int) : ℚ) < 0.2 := by norm_num
  simp [scorePolicy, reference_premium, premium_diff_percent, premiumScore, riskScore,
    ERat.sub, ERat.abs, ERat.div, ERat.ltQ, listMin, pyStr, pyDigits, isSubstr, policyP1,
    profileNeg, List.lookup, Nat.digitChar, List.isPrefixOf, bind, Except.bind, h0, h1]
  all_goals norm_num

theorem scenarioNeg_scored : scored_policies [policyP1] profileNeg = .ok [(policyP1, 3)] := by
  have he : eligible_policies [policyP1] profileNeg = [policyP1] := by decide
  unfold scored_policies
  rw [he, scoreLoop_cons, scenarioNeg_score]
  rfl

theorem scenarioNeg_quote : get_quote [policyP1] profileNeg = .ok [policyP1] :=
  (get_quote_ok_iff [policyP1] profileNeg [policyP1]).mpr
    ⟨[(policyP1, 3)], scenarioNeg_scored, by simp [sorted_policies]⟩

/-! The claims. -/

/-- Claim C1: reference-premium selection — for every policy the source's
resolution agrees with the spec's rule (first value of `premium_yearly` in
insertion order when `sum_insured` is empty or `[0]`, otherwise the value at
key `str(min(sum_insured))`, infinite when that key is absent); and Scenario
C's policy (`sum_insured [0]`, `premium_yearly {"flat": 12000}`) resolves to
reference premium 12000. -/
theorem C1_reference_premium_selection :
    (∀ p : Policy, (reference_premium p).toOption = specReferencePremium p)
    ∧ reference_premium policyFlat = .ok (.val (.pnum 12000)) := by
  constructor
  · intro p
    unfold reference_premium specReferencePremium
    split
    · cases p.premium_yearly with
      | nil => rfl
      | cons kv rest => rfl
    · cases p.sum_insured with
      | nil => rfl
      | cons x xs =>
        cases hlk : List.lookup (pyStr (listMin x xs)) p.premium_yearly with
        | none => simp [hlk, Except.toOption]
        | some v => simp [hlk, Except.toOption]
  · decide

/-- Claim C9: the recommendation computation is a pure, deterministic
function of the catalog snapshot and the profile: the same inputs always
give the same output. -/
theorem C9_idempotent : ∀ (catalog : List Policy) (profile : UserProfile),
    get_quote catalog profile = get_quote catalog profile := fun _ _ => rfl

/-- Claim C7: the quote engine returns at most 3 recommendations — exactly
the first 3 entries of the sorted scored list (all of them when fewer). -/
theorem C7_truncation :
    ∀ (catalog : List Policy) (profile : UserProfile),
      (∀ res, get_quote catalog profile = .ok res → res.length ≤ 3)
      ∧ (∀ scored, scored_policies catalog profile = .ok scored →
          get_quote catalog profile =
            .ok (((sorted_policies scored).take 3).map (fun x => x.1))) := by
  intro catalog profile
  constructor
  · intro res h
    obtain ⟨scored, -, rfl⟩ := (get_quote_ok_iff catalog profile res).mp h
    calc (((sorted_policies scored).take 3).map (fun x => x.1)).length
        = ((sorted_policies scored).take 3).length := List.length_map _ _
      _ ≤ 3 := List.length_take_le _ _
  · intro scored h
    exact (get_quote_ok_iff catalog profile _).mpr ⟨scored, h, rfl⟩

/-- Witness for C7 at Scenario A. -/
theorem C7_truncation_witness : ([policyP1] : List Policy).length ≤ 3 :=
  (C7_truncation [policyP1] profileA).1 [policyP1] scenarioA_quote

/-- Claim C6: lines 154-155 sort the scored list stably by score descending:
the output is a permutation of the scored list, pairwise descending in
score, and two entries with equal scores keep their relative order. -/
theorem C6_stable_ranking :
    ∀ scored : List (Policy × Nat),
      List.Perm (sorted_policies scored) scored
      ∧ (sorted_policies scored).Pairwise (fun a b => b.2 ≤ a.2)
      ∧ ∀ a b : Policy × Nat, a.2 = b.2 → List.Sublist [a, b] scored →
          List.Sublist [a, b] (sorted_policies scored) := by
  have htrans : ∀ a b c : Policy × Nat, sortLE a b → sortLE b c → sortLE a c := by
    intro a b c hab hbc
    simp only [sortLE, decide_eq_true_eq] at *
    exact le_trans hbc hab
  have htotal : ∀ a b : Policy × Nat, sortLE a b || sortLE b a := by
    intro a b
    simp only [sortLE, Bool.or_eq_true, decide_eq_true_eq]
    exact Nat.le_total b.2 a.2
  intro scored
  refine ⟨List.mergeSort_perm scored sortLE, ?_, ?_⟩
  · exact (List.sorted_mergeSort htrans htotal scored).imp
      (fun hab => by simpa [sortLE, decide_eq_true_eq] using hab)
  · intro a b hab hsub
    exact List.pair_sublist_mergeSort htrans htotal
      (by simp [sortLE, hab]) hsub

/-- Witness for C6 on a concrete two-element tie. -/
theorem C6_stable_ranking_witness :
    List.Sublist [(policyP1, 5), (policyFlat, 5)]
      (sorted_policies [(policyP1, 5), (policyFlat, 5)]) :=
  (C6_stable_ranking [(policyP1, 5), (policyFlat, 5)]).2.2 (policyP1, 5) (policyFlat, 5) rfl
    (List.Sublist.refl _)

/-- Claim C8 counterexample (the claim's negation): no profile/policy pair
collects both risk bonuses, since the score of lines 142-146 reaches 5 only
when `risk_tolerance` equals both "Low" and "High". -/
theorem C8_counterexample :
    ¬ ∃ (profile : UserProfile) (p : Policy), riskScore profile p = 5 := by
  rintro ⟨profile, p, h⟩
  rw [riskScore_eq_spec] at h
  unfold specRiskBonus at h
  by_cases hlo : lowRiskBonusApplies profile p <;>
    by_cases hhi : highRiskBonusApplies profile p
  · exact absurd (hlo.1.symm.trans hhi.1) (by decide)
  all_goals simp [hlo, hhi] at h

/-- Claim C8 amended: the two risk-alignment bonuses are independently
additive — the risk score is the sum of the two independent conditional
additions — but they are mutually exclusive: since the +2 needs
`risk_tolerance = "Low"` and the +3 needs `risk_tolerance = "High"`, no
single scoring pass gains both. -/
theorem C8_amended :
    ∀ (profile : UserProfile) (p : Policy),
      riskScore profile p =
        (if lowRiskBonusApplies profile p then 2 else 0) +
          (if highRiskBonusApplies profile p then 3 else 0)
      ∧ ¬(lowRiskBonusApplies profile p ∧ highRiskBonusApplies profile p) := by
  intro profile p
  refine ⟨(riskScore_eq_spec profile p).trans rfl, ?_⟩
  rintro ⟨hlo, hhi⟩
  have h1 : profile.risk_tolerance = "Low" := hlo.1
  have h2 : profile.risk_tolerance = "High" := hhi.1
  rw [h1] at h2
  exact absurd h2 (by decide)

/-- Claim C2: the scoring formula — a policy whose reference premium
resolves to the number `q` scores, for a nonzero band, exactly the claimed
premium-proximity bonus plus the claimed risk bonuses; a `risk_tolerance`
other than "Low" and "High" earns no risk bonus; and Scenario A scores P1
at 5 and includes it. -/
theorem C2_scoring_formula :
    (∀ (profile : UserProfile) (p : Policy) (q : ℚ),
        reference_premium p = .ok (.val (.pnum q)) →
        profile.preferred_premium_band ≠ 0 →
        scorePolicy profile p =
          .ok (specPremiumBonus q (profile.preferred_premium_band : ℚ) +
               specRiskBonus profile p))
    ∧ (∀ (profile : UserProfile) (p : Policy),
        profile.risk_tolerance ≠ "Low" → profile.risk_tolerance ≠ "High" →
        riskScore profile p = 0)
    ∧ scored_policies [policyP1] profileA = .ok [(policyP1, 5)]
    ∧ get_quote [policyP1] profileA = .ok [policyP1] := by
  refine ⟨?_, ?_, scenarioA_scored, scenarioA_quote⟩
  · intro profile p q h hband
    rw [scorePolicy_pnum profile p q h hband, riskScore_eq_spec]
    congr 1
    unfold premiumScore specPremiumBonus
    simp only [ERat.ltQ, decide_eq_true_eq]
  · intro profile p hlo hhi
    rw [riskScore_eq_spec]
    unfold specRiskBonus lowRiskBonusApplies highRiskBonusApplies
    rw [if_neg (fun hc => hlo hc.1), if_neg (fun hc => hhi hc.1)]

/-- Witness for C2 at Scenario A. -/
theorem C2_scoring_formula_witness :
    scorePolicy profileA policyP1 =
      .ok (specPremiumBonus 5000 (profileA.preferred_premium_band : ℚ) +
           specRiskBonus profileA policyP1) :=
  C2_scoring_formula.1 profileA policyP1 5000 (by decide) (by decide)

/-- Claim C3: the eligibility filter keeps a policy iff
`min_age ≤ age ≤ max_age` with defaults 0 and 100, and every returned
recommendation satisfies those bounds. -/
theorem C3_eligibility :
    (∀ (catalog : List Policy) (profile : UserProfile) (p : Policy),
        p ∈ eligible_policies catalog profile ↔
          (p ∈ catalog ∧ p.eligibility_min_age.getD 0 ≤ profile.age ∧
            profile.age ≤ p.eligibility_max_age.getD 100))
    ∧ (∀ (catalog : List Policy) (profile : UserProfile) (res : List Policy),
        get_quote catalog profile = .ok res → ∀ p ∈ res,
          p.eligibility_min_age.getD 0 ≤ profile.age ∧
            profile.age ≤ p.eligibility_max_age.getD 100) := by
  have hmem : ∀ (catalog : List Policy) (profile : UserProfile) (p : Policy),
      p ∈ eligible_policies catalog profile ↔
        (p ∈ catalog ∧ p.eligibility_min_age.getD 0 ≤ profile.age ∧
          profile.age ≤ p.eligibility_max_age.getD 100) := by
    intro catalog profile p
    simp [eligible_policies, List.mem_filter, eligibleB, decide_eq_true_eq]
  refine ⟨hmem, ?_⟩
  intro catalog profile res h p hp
  obtain ⟨scored, hs, rfl⟩ := (get_quote_ok_iff catalog profile res).mp h
  obtain ⟨⟨p', s⟩, hmem', heq⟩ := List.mem_map.mp hp
  have h2 : (p', s) ∈ sorted_policies scored := List.mem_of_mem_take hmem'
  have h3 : (p', s) ∈ scored := by
    unfold sorted_policies at h2
    exact List.mem_mergeSort.mp h2
  have h4 : p' ∈ eligible_policies catalog profile :=
    scoreLoop_mem profile _ scored hs p' s h3
  cases heq
  exact ((hmem catalog profile p').mp h4).2

/-- Witness for C3 at Scenario A. -/
theorem C3_eligibility_witness :
    policyP1.eligibility_min_age.getD 0 ≤ profileA.age ∧
      profileA.age ≤ policyP1.eligibility_max_age.getD 100 :=
  C3_eligibility.2 [policyP1] profileA [policyP1] scenarioA_quote policyP1
    (by simp)

/-- Claim C4 counterexample: an eligible policy with an empty
`premium_yearly` mapping is not skipped — the `IndexError` of
`list(...)[0]` is outside the caught `(ValueError, TypeError)` classes, so
the whole request errors and the remaining (scorable) policy is not
returned. -/
theorem C4_counterexample :
    get_quote [policyEmptyPrem, policyP1] profileA = .error .indexError := by
  decide

/-- Claim C4 amended: a policy whose scoring raises `ValueError` or
`TypeError` (for example a non-numeric premium value) is skipped exactly as
claimed — removing it from the catalog leaves the result unchanged — but a
policy whose resolution finds an empty `premium_yearly` mapping raises an
uncaught `IndexError` that aborts the whole request instead. -/
theorem C4_amended :
    (∀ (c1 c2 : List Policy) (profile : UserProfile) (p : Policy),
        (scorePolicy profile p = .error .valueError ∨
         scorePolicy profile p = .error .typeError) →
        get_quote (c1 ++ p :: c2) profile = get_quote (c1 ++ c2) profile)
    ∧ (∀ (profile : UserProfile) (p : Policy),
        eligibleB profile p = true →
        (p.sum_insured = [] ∨ p.sum_insured = [0]) →
        p.premium_yearly = [] →
        get_quote [p] profile = .error .indexError) := by
  constructor
  · intro c1 c2 profile p hp
    unfold get_quote scored_policies eligible_policies
    rw [List.filter_append, List.filter_append, List.filter_cons]
    by_cases heb : eligibleB profile p = true
    · rw [if_pos heb, scoreLoop_skip_middle profile p hp]
    · rw [if_neg heb]
  · intro profile p helig hsum hpy
    apply get_quote_error
    have href : reference_premium p = .error .indexError := by
      unfold reference_premium
      rw [if_pos hsum, hpy]
    unfold scored_policies eligible_policies
    rw [List.filter_cons, if_pos helig]
    rw [List.filter_nil, scoreLoop_cons, scorePolicy_ref_error profile p _ href]

/-- Witness for C4 amended: a string-valued premium is skipped, leaving the
other policy's recommendation unchanged. -/
theorem C4_amended_witness :
    get_quote [policyStrPrem, policyP1] profileA = get_quote [policyP1] profileA :=
  C4_amended.1 [] [policyP1] profileA policyStrPrem (Or.inr (by decide))

/-- Claim C5 counterexample: with `preferred_premium_band = 0` and an
eligible, resolvable policy in the catalog, the request can still fail with
`IndexError` rather than the claimed division error, when an earlier
eligible policy's empty premium mapping errors first. -/
theorem C5_counterexample :
    get_quote [policyEmptyPrem, policyP1] profileBand0 = .error .indexError
    ∧ reference_premium policyP1 = .ok (.val (.pnum 5000))
    ∧ PyErr.indexError ≠ PyErr.zeroDivisionError := by
  refine ⟨by decide, by decide, by decide⟩

/-- Claim C5 amended: with `preferred_premium_band = 0`, provided no
eligible policy hits the uncaught empty-mapping `IndexError`, the presence
of one eligible policy whose reference premium resolves (numerically or to
the infinite default) makes the request fail with the uncaught
`ZeroDivisionError` — it is not absorbed by the per-policy skip handler. -/
theorem C5_amended :
    ∀ (catalog : List Policy) (profile : UserProfile),
      profile.preferred_premium_band = 0 →
      (∀ p ∈ eligible_policies catalog profile,
          ¬((p.sum_insured = [] ∨ p.sum_insured = [0]) ∧ p.premium_yearly = [])) →
      (∃ p ∈ eligible_policies catalog profile, resolvesNumeric p) →
      get_quote catalog profile = .error .zeroDivisionError := by
  intro catalog profile hband hno hex
  exact get_quote_error _ _ _ (scoreLoop_band0 profile hband _ hno hex)

/-- Witness for C5 amended at Scenario E. -/
theorem C5_amended_witness :
    get_quote [policyP1] profileBand0 = .error .zeroDivisionError :=
  C5_amended [policyP1] profileBand0 rfl (by decide)
    ⟨policyP1, by decide, Or.inl ⟨5000, by decide⟩⟩

/-- Claim C10: a negative `preferred_premium_band` is accepted (the profile
type only requires an integer) and makes the premium-proximity quotient
nonpositive, so every policy that scores at all receives the +3 bonus; at a
concrete negative-band profile the engine returns normally with that
score. -/
theorem C10_negative_band :
    (∀ (profile : UserProfile) (p : Policy) (s : Nat),
        profile.preferred_premium_band < 0 →
        scorePolicy profile p = .ok s →
        s = 3 + riskScore profile p)
    ∧ scored_policies [policyP1] profileNeg = .ok [(policyP1, 3)]
    ∧ get_quote [policyP1] profileNeg = .ok [policyP1] := by
  refine ⟨?_, scenarioNeg_scored, scenarioNeg_quote⟩
  intro profile p s hband hok
  have hb0 : profile.preferred_premium_band ≠ 0 := hband.ne
  have hbq : ((profile.preferred_premium_band : Int) : ℚ) < 0 := by exact_mod_cast hband
  have hcast0 : ((profile.preferred_premium_band : Int) : ℚ) ≠ 0 := Int.cast_ne_zero.mpr hb0
  cases href : reference_premium p with
  | error e =>
    rw [scorePolicy_ref_error profile p e href] at hok
    simp at hok
  | ok r =>
    cases r with
    | inf =>
      have hnotpos : ¬((0 : ℚ) < (profile.preferred_premium_band : ℚ)) :=
        not_lt.mpr hbq.le
      unfold scorePolicy at hok
      rw [href] at hok
      simp [premium_diff_percent, ERat.sub, ERat.abs, ERat.div, hcast0, hnotpos,
        premiumScore, ERat.ltQ, bind, Except.bind] at hok
      omega
    | val v =>
      cases v with
      | pstr str =>
        rw [scorePolicy_pstr profile p str href] at hok
        simp at hok
      | pnum q =>
        rw [scorePolicy_pnum profile p q href hb0] at hok
        injection hok with hok
        have hx : |q - (profile.preferred_premium_band : ℚ)| /
            (profile.preferred_premium_band : ℚ) < 0.2 := by
          have hle : |q - (profile.preferred_premium_band : ℚ)| /
              (profile.preferred_premium_band : ℚ) ≤ 0 :=
            div_nonpos_iff.mpr (Or.inl ⟨abs_nonneg _, hbq.le⟩)
          exact lt_of_le_of_lt hle (by norm_num)
        rw [← hok]
        unfold premiumScore
        simp [ERat.ltQ, hx]

/-- Witness for C10 at the concrete negative-band profile. -/
theorem C10_negative_band_witness : (3 : Nat) = 3 + riskScore profileNeg policyP1 :=
  C10_negative_band.1 profileNeg policyP1 3 (by decide) scenarioNeg_score

/-- Witness for C8 amended at a concrete pair. -/
theorem C8_amended_witness :
    riskScore profileA policyP1 =
      (if lowRiskBonusApplies profileA policyP1 then 2 else 0) +
        (if highRiskBonusApplies profileA policyP1 then 3 else 0) :=
  (C8_amended profileA policyP1).1
end Inna
